import Mathlib

/-!
Shallow embedding of `src/extension.ts` of the git-switcher extension.

The embedding models the two core operations, `getCurrentUser` (the
Identity Resolver) and `setUser` (the Identity Applier), as pure
state-passing functions over:
  * the Profile Store (the `git-switcher.users` configuration array),
    modelled as a `List User`;
  * an `Env` record capturing the externally observable behaviour of the
    host and of the external git tool for one invocation: the first
    workspace folder, the outcome of the identity-read subprocess, the
    outcome of the repository probe, and whether the config write and the
    configuration-store update succeed.

JavaScript `undefined` matters in one place: `const [name, email] =
result.split("\n")` leaves `email` undefined when the output has a single
line.  We model a user's `email` field as `Option String`, with `none`
standing for `undefined` (note `undefined === undefined` is `true` in JS,
matching decidable equality on `Option String`).  `String.split` always
returns at least one element, so `name` is always a proper string.

Each operation also returns the list of external-tool invocations it made
(`Event`s) and the user-visible messages it showed, and its result is an
`Except`: `Except.error ()` models the operation's promise rejecting,
i.e. an error escaping the operation's own try/catch boundary.
-/

/-- A git identity, `{ name, email }` from `src/types`.  `email = none`
models the JavaScript `undefined` that array destructuring can produce. -/
structure User where
  name : String
  email : Option String
deriving DecidableEq, Repr

/-- Element-wise equality test used by the `find` callbacks in the source:
`u.name === user.name && u.email === user.email`. -/
def usersEq (u v : User) : Bool :=
  u.name == v.name && u.email == v.email

/-- `usersList.find(u => ...) !== undefined`: membership in the Profile
Store by (name, email) equality. -/
def memberOf (store : List User) (u : User) : Bool :=
  (store.find? (fun v => usersEq v u)).isSome

/-- The add-if-absent path shared by `getCurrentUser` (lines 42-51) and
`setUser` (lines 97-106): look the user up by (name, email) equality and
append it only when absent. -/
def addIfAbsent (store : List User) (u : User) : List User :=
  if memberOf store u then store else store ++ [u]

/-- External behaviour of the host and the git tool for one invocation. -/
structure Env where
  /-- `workspace.workspaceFolders[0].uri.fsPath`, or `none` when the list
  is missing or empty. -/
  workspace : Option String
  /-- Outcome of `git config user.name && git config user.email`:
  `none` when the subprocess reports an error (non-zero exit), otherwise
  the raw stdout handed to `resolve(stdout.trim())`. -/
  readOutput : Option String
  /-- Outcome of `git rev-parse --is-inside-work-tree`: `true` when the
  subprocess exits without error, `false` otherwise. -/
  repoInitialized : Bool
  /-- Whether `git config [--global] user.name ... && git config
  [--global] user.email ...` exits without error. -/
  writeOk : Bool
  /-- Whether `getConfiguration("git-switcher").update("users", ...)`
  succeeds; `false` models a PersistenceError (rejected update promise). -/
  persistOk : Bool
deriving DecidableEq, Repr

/-- One external invocation performed by an operation. -/
inductive Event where
  /-- The identity-read subprocess, with the `cwd` option passed. -/
  | readConfig : Option String → Event
  /-- The `git rev-parse --is-inside-work-tree` probe, with its `cwd`. -/
  | probeRepo : String → Event
  /-- The two-field `git config` write: global flag and the identity. -/
  | writeConfig : Bool → User → Event
  /-- The configuration-store `update("users", ...)` call. -/
  | persist : List User → Event
deriving DecidableEq, Repr

/-- Whether an event is the external tool's identity write command. -/
def Event.isWrite : Event → Bool
  | .writeConfig _ _ => true
  | _ => false

/-- User-visible messages shown by the source. -/
def noWorkspaceWarnMsg : String := "No workspace folder found, trying to get global user"

/-- Message of `showErrorMessage` in `getCurrentUser`'s catch block. -/
def probeErrorMsg : String := "Error getting current user"

/-- Message of `showErrorMessage` when `setUser` finds no workspace. -/
def noWorkspaceErrMsg : String := "No workspace folder found"

/-- Message of `showErrorMessage` when Local scope hits an uninitialized
repository. -/
def uninitRepoMsg : String := "Git repository not initialized. Please initialize a repository or set the user globally."

/-- Message of `showErrorMessage` in `setUser`'s catch block. -/
def setErrorMsg : String := "Error setting current user"

/-- Result of one operation: its returned value (`Except.error ()` when
the operation's promise rejects), the Profile Store afterwards, the
external invocations made, and the messages shown. -/
structure OpResult (α : Type) where
  ret : Except Unit α
  store : List User
  events : List Event
  notices : List String
deriving Repr

/-- JavaScript `String.prototype.trim` over the character list: strip
whitespace from both ends. -/
def jsTrim (s : String) : String :=
  ⟨((s.data.dropWhile Char.isWhitespace).reverse.dropWhile
      Char.isWhitespace).reverse⟩

/-- JavaScript `"...".split("\n")` over the character list: the list of
chunks between newline characters.  As in JS, the result is never empty
(`"".split("\n")` is `[""]`). -/
def splitLinesAux (cs : List Char) : List (List Char) :=
  match cs with
  | [] => [[]]
  | c :: rest =>
    if c = '\n' then [] :: splitLinesAux rest
    else
      match splitLinesAux rest with
      | [] => [[c]]
      | l :: ls => (c :: l) :: ls

/-- JavaScript `String.prototype.split` at the separator `"\n"`. -/
def jsSplitNewline (s : String) : List String :=
  (splitLinesAux s.data).map (fun l => ⟨l⟩)

/-- Parsing step of the identity read (lines 31, 36-38): trim the stdout,
split on newlines, take line 0 as the name and line 1 (possibly
`undefined`) as the email. -/
def probeParse (stdout : String) : User :=
  let lines := jsSplitNewline (jsTrim stdout)
  { name := lines.headD "", email := lines[1]? }

/-- The Environment Probe's identity read (lines 26-38): the awaited
promise either rejects (subprocess error) or yields the parsed identity. -/
def currentIdentity (readOutput : Option String) : Except Unit User :=
  match readOutput with
  | none => Except.error ()
  | some out => Except.ok (probeParse out)

/-- Value of the `currentUser` variable after the try/catch of
`getCurrentUser` (lines 12-41): the parsed identity on success, the
untouched initial `{name: "", email: ""}` when the read rejects. -/
def resolvedUser (env : Env) : User :=
  match currentIdentity env.readOutput with
  | Except.error _ => ⟨"", some ""⟩
  | Except.ok u => u

/-- `getCurrentUser` (lines 12-53), the Identity Resolver.  The try block
covers the workspace lookup, the read subprocess and the parse; the
lookup-and-register steps (lines 42-51) run after the catch, so a failing
`update` rejects the whole operation (`ret = Except.error ()`). -/
def getCurrentUser (env : Env) (store : List User) : OpResult User :=
  let warn := if env.workspace.isNone then [noWorkspaceWarnMsg] else []
  let cwd := env.workspace.bind (fun p => if p = "" then none else some p)
  let currentUser := resolvedUser env
  let notices :=
    match currentIdentity env.readOutput with
    | Except.error _ => warn ++ [probeErrorMsg]
    | Except.ok _ => warn
  let events := [Event.readConfig cwd]
  if memberOf store currentUser then
    { ret := Except.ok currentUser, store := store, events := events,
      notices := notices }
  else
    let newStore := store ++ [currentUser]
    if env.persistOk then
      { ret := Except.ok currentUser, store := newStore,
        events := events ++ [Event.persist newStore], notices := notices }
    else
      { ret := Except.error (), store := store,
        events := events ++ [Event.persist newStore], notices := notices }

/-- `setUser` (lines 55-111), the Identity Applier.  Every step runs
inside the try/catch, so the operation never rejects: each failure path
returns `undefined` (modelled `Except.ok none`) after showing a message. -/
def setUser (env : Env) (store : List User) (user : User) (global : Bool) :
    OpResult (Option User) :=
  match env.workspace with
  | none =>
    { ret := Except.ok none, store := store, events := [],
      notices := [noWorkspaceErrMsg] }
  | some repoPath =>
    let probeEvents := [Event.probeRepo repoPath]
    if !env.repoInitialized && !global then
      { ret := Except.ok none, store := store, events := probeEvents,
        notices := [uninitRepoMsg] }
    else
      let writeEvents := probeEvents ++ [Event.writeConfig global user]
      if !env.writeOk then
        { ret := Except.ok none, store := store, events := writeEvents,
          notices := [setErrorMsg] }
      else if memberOf store user then
        { ret := Except.ok (some user), store := store,
          events := writeEvents, notices := [] }
      else
        let newStore := store ++ [user]
        if env.persistOk then
          { ret := Except.ok (some user), store := newStore,
            events := writeEvents ++ [Event.persist newStore], notices := [] }
        else
          { ret := Except.ok none, store := store,
            events := writeEvents ++ [Event.persist newStore],
            notices := [setErrorMsg] }

/-- One user-initiated operation: a resolver run or an apply request. -/
inductive Op where
  | resolve : Env → Op
  | apply : Env → User → Bool → Op

/-- Run one operation on the store; return the new store together with
the identities the operation successfully produced (a probed identity
returned by the resolver, or an identity the applier returned). -/
def step (store : List User) : Op → List User × List User
  | Op.resolve env =>
    let r := getCurrentUser env store
    (r.store, match r.ret with | Except.ok u => [u] | Except.error _ => [])
  | Op.apply env u g =>
    let r := setUser env store u g
    (r.store,
      match r.ret with | Except.ok (some v) => [v] | _ => [])

/-- Run a sequence of operations; return the final store and all
identities successfully probed or applied along the way. -/
def runTrace (store : List User) : List Op → List User × List User
  | [] => (store, [])
  | op :: ops =>
    let s := step store op
    let rest := runTrace s.1 ops
    (rest.1, s.2 ++ rest.2)

/-! ## Basic lemmas about the store operations -/

theorem usersEq_iff (u v : User) : usersEq u v = true ↔ u = v := by
  cases u; cases v
  simp [usersEq, User.mk.injEq]

theorem memberOf_iff (s : List User) (u : User) : memberOf s u = true ↔ u ∈ s := by
  simp [memberOf, List.find?_isSome, usersEq_iff]

theorem addIfAbsent_nodup {s : List User} (u : User) (h : s.Nodup) :
    (addIfAbsent s u).Nodup := by
  unfold addIfAbsent
  split
  · exact h
  · next hm =>
    have hu : u ∉ s := fun hmem => hm ((memberOf_iff s u).mpr hmem)
    simp [List.nodup_append, h, hu]

theorem mem_addIfAbsent_of_mem {s : List User} {a : User} (u : User)
    (h : a ∈ s) : a ∈ addIfAbsent s u := by
  unfold addIfAbsent
  split
  · exact h
  · exact List.mem_append_left _ h

theorem mem_addIfAbsent_self (s : List User) (u : User) : u ∈ addIfAbsent s u := by
  unfold addIfAbsent
  split
  · next hm => exact (memberOf_iff s u).mp hm
  · exact List.mem_append_right _ (List.mem_singleton.mpr rfl)

/-- Whether `setUser` reaches its final `return user` (the full success
path): a workspace folder exists, the scope check passes, the git write
succeeds, and persistence is not needed or succeeds. -/
def applySucceeds (env : Env) (store : List User) (u : User) (global : Bool) : Bool :=
  env.workspace.isSome && (global || env.repoInitialized) && env.writeOk &&
    (memberOf store u || env.persistOk)

/-! ## Characterization lemmas for the two operations -/

theorem getCurrentUser_store_eq (env : Env) (s : List User) :
    (getCurrentUser env s).store =
      if memberOf s (resolvedUser env) then s
      else if env.persistOk then s ++ [resolvedUser env] else s := by
  by_cases hm : memberOf s (resolvedUser env) <;>
    by_cases hp : env.persistOk <;> simp [getCurrentUser, hm, hp]

theorem getCurrentUser_ret_eq (env : Env) (s : List User) :
    (getCurrentUser env s).ret =
      if memberOf s (resolvedUser env) || env.persistOk then
        Except.ok (resolvedUser env)
      else Except.error () := by
  by_cases hm : memberOf s (resolvedUser env) <;>
    by_cases hp : env.persistOk <;> simp [getCurrentUser, hm, hp]

theorem setUser_ret_eq (env : Env) (s : List User) (u : User) (g : Bool) :
    (setUser env s u g).ret =
      Except.ok (if applySucceeds env s u g then some u else none) := by
  unfold setUser applySucceeds
  cases hw : env.workspace
  · simp [hw]
  · cases g <;> cases hr : env.repoInitialized <;> cases hk : env.writeOk <;>
      cases hm : memberOf s u <;> cases hp : env.persistOk <;>
      simp [hw, hr, hk, hm, hp]

theorem setUser_store_eq (env : Env) (s : List User) (u : User) (g : Bool) :
    (setUser env s u g).store =
      if applySucceeds env s u g then addIfAbsent s u else s := by
  unfold setUser applySucceeds
  cases hw : env.workspace
  · simp [hw]
  · cases g <;> cases hr : env.repoInitialized <;> cases hk : env.writeOk <;>
      cases hm : memberOf s u <;> cases hp : env.persistOk <;>
      simp [hw, hr, hk, hm, hp, addIfAbsent]

/-- Whether an event is the configuration-store update call. -/
def Event.isPersist : Event → Bool
  | .persist _ => true
  | _ => false

/-- A nominal environment: workspace open, read succeeds, repository
initialized, git write and persistence succeed. -/
def demoEnv : Env :=
  { workspace := some "/w", readOutput := some "Alice\nalice@x.com",
    repoInitialized := true, writeOk := true, persistOk := true }

/-- Concrete identity used in witnesses. -/
def demoAlice : User := ⟨"Alice", some "alice@x.com"⟩

/-- Concrete identity used in witnesses. -/
def demoBob : User := ⟨"Bob", some "bob@x.com"⟩

/-- Concrete identity used in witnesses. -/
def demoCarol : User := ⟨"Carol", some "carol@x.com"⟩

/-! ## Claims -/

/-- C1: with a workspace open, applying any identity with scope Local
(global = false) in a directory where the repository probe reports false
fails with the UninitializedRepoError message, returns undefined, leaves
the Profile Store sequence unchanged, and never invokes the external
tool's write command. -/
theorem c1_local_uninit_rejected (env : Env) (store : List User) (u : User)
    (p : String) (hw : env.workspace = some p) (hr : env.repoInitialized = false) :
    (setUser env store u false).ret = Except.ok none ∧
    (setUser env store u false).notices = [uninitRepoMsg] ∧
    (setUser env store u false).store = store ∧
    ∀ e ∈ (setUser env store u false).events, e.isWrite = false := by
  simp [setUser, hw, hr, Event.isWrite]

/-- Witness for C1: applying Carol with scope Local in a concrete
non-repository environment. -/
theorem c1_local_uninit_rejected_witness :
    ({ demoEnv with repoInitialized := false } : Env).workspace = some "/w" ∧
    ({ demoEnv with repoInitialized := false } : Env).repoInitialized = false ∧
    ((setUser { demoEnv with repoInitialized := false } [demoAlice] demoCarol false).ret
        = Except.ok none ∧
      (setUser { demoEnv with repoInitialized := false } [demoAlice] demoCarol false).notices
        = [uninitRepoMsg] ∧
      (setUser { demoEnv with repoInitialized := false } [demoAlice] demoCarol false).store
        = [demoAlice] ∧
      ∀ e ∈ (setUser { demoEnv with repoInitialized := false } [demoAlice] demoCarol false).events,
        e.isWrite = false) :=
  ⟨rfl, rfl,
    c1_local_uninit_rejected { demoEnv with repoInitialized := false }
      [demoAlice] demoCarol "/w" rfl rfl⟩

/-- C3: the add-if-absent path is idempotent (adding the same identity
twice leaves the sequence after the second call equal to the sequence
after the first call), and applying an identity already present in the
store leaves the store length unchanged. -/
theorem c3_addIfAbsent_idempotent (s : List User) (u : User) :
    addIfAbsent (addIfAbsent s u) u = addIfAbsent s u ∧
    ∀ env g, memberOf s u = true → (setUser env s u g).store.length = s.length := by
  constructor
  · by_cases hm : memberOf s u
    · simp [addIfAbsent, hm]
    · have h2 : memberOf (s ++ [u]) u = true :=
        (memberOf_iff _ _).mpr (List.mem_append_right _ (List.mem_singleton.mpr rfl))
      simp [addIfAbsent, hm, h2]
  · intro env g hm
    rw [setUser_store_eq]
    by_cases ha : applySucceeds env s u g
    · simp [ha, addIfAbsent, hm]
    · simp [ha]

/-- Witness for C3: double insertion of Bob into a concrete store, and a
concrete successful apply of Alice who is already stored. -/
theorem c3_addIfAbsent_idempotent_witness :
    addIfAbsent (addIfAbsent [demoAlice] demoBob) demoBob
        = addIfAbsent [demoAlice] demoBob ∧
    memberOf [demoAlice] demoAlice = true ∧
    (setUser demoEnv [demoAlice] demoAlice false).store.length = [demoAlice].length :=
  ⟨(c3_addIfAbsent_idempotent [demoAlice] demoBob).1, by decide,
    (c3_addIfAbsent_idempotent [demoAlice] demoAlice).2 demoEnv false (by decide)⟩

/-- C5: with a workspace open, in a directory that is not a repository,
applying an identity that is absent from the store with scope Global
succeeds when the git write and the persistence update succeed (the
repository check is bypassed): the identity is appended at the end of the
store and the applied identity is returned. -/
theorem c5_global_bypasses_repo_check (env : Env) (store : List User) (u : User)
    (p : String) (hw : env.workspace = some p) (_hr : env.repoInitialized = false)
    (hk : env.writeOk = true) (hp : env.persistOk = true)
    (hm : memberOf store u = false) :
    (setUser env store u true).ret = Except.ok (some u) ∧
    (setUser env store u true).store = store ++ [u] := by
  have hs : applySucceeds env store u true = true := by
    simp [applySucceeds, hw, hk, hp]
  rw [setUser_ret_eq, setUser_store_eq]
  simp [hs, addIfAbsent, hm]

/-- Witness for C5: scenario 2 of the spec, applying Bob globally over
the store holding only Alice in a non-repository directory. -/
theorem c5_global_bypasses_repo_check_witness :
    ({ demoEnv with repoInitialized := false } : Env).workspace = some "/w" ∧
    ({ demoEnv with repoInitialized := false } : Env).repoInitialized = false ∧
    ({ demoEnv with repoInitialized := false } : Env).writeOk = true ∧
    ({ demoEnv with repoInitialized := false } : Env).persistOk = true ∧
    memberOf [demoAlice] demoBob = false ∧
    ((setUser { demoEnv with repoInitialized := false } [demoAlice] demoBob true).ret
        = Except.ok (some demoBob) ∧
      (setUser { demoEnv with repoInitialized := false } [demoAlice] demoBob true).store
        = [demoAlice] ++ [demoBob]) :=
  ⟨rfl, rfl, rfl, rfl, by decide,
    c5_global_bypasses_repo_check { demoEnv with repoInitialized := false }
      [demoAlice] demoBob "/w" rfl rfl rfl rfl (by decide)⟩

/-- C8: for every identity and both scopes, when no workspace folder is
available setUser fails with the NoWorkspaceError message before any
mutation: undefined is returned, the Profile Store is unchanged and no
external-tool command at all is invoked. -/
theorem c8_no_workspace_aborts (env : Env) (store : List User) (u : User)
    (g : Bool) (hw : env.workspace = none) :
    (setUser env store u g).ret = Except.ok none ∧
    (setUser env store u g).notices = [noWorkspaceErrMsg] ∧
    (setUser env store u g).store = store ∧
    (setUser env store u g).events = [] := by
  simp [setUser, hw]

/-- Witness for C8: both scopes at a concrete workspace-less environment. -/
theorem c8_no_workspace_aborts_witness :
    ({ demoEnv with workspace := none } : Env).workspace = none ∧
    ((setUser { demoEnv with workspace := none } [demoAlice] demoBob true).ret
        = Except.ok none ∧
      (setUser { demoEnv with workspace := none } [demoAlice] demoBob true).notices
        = [noWorkspaceErrMsg] ∧
      (setUser { demoEnv with workspace := none } [demoAlice] demoBob true).store
        = [demoAlice] ∧
      (setUser { demoEnv with workspace := none } [demoAlice] demoBob true).events = []) ∧
    ((setUser { demoEnv with workspace := none } [demoAlice] demoBob false).ret
        = Except.ok none ∧
      (setUser { demoEnv with workspace := none } [demoAlice] demoBob false).notices
        = [noWorkspaceErrMsg] ∧
      (setUser { demoEnv with workspace := none } [demoAlice] demoBob false).store
        = [demoAlice] ∧
      (setUser { demoEnv with workspace := none } [demoAlice] demoBob false).events = []) :=
  ⟨rfl,
    c8_no_workspace_aborts { demoEnv with workspace := none } [demoAlice] demoBob true rfl,
    c8_no_workspace_aborts { demoEnv with workspace := none } [demoAlice] demoBob false rfl⟩

/-- C9: for every identity, scope and store, when the git write command
fails the Profile Store registration step is skipped: the store is
identical before and after the call and the configuration-store update is
never attempted. -/
theorem c9_write_failure_skips_registration (env : Env) (store : List User)
    (u : User) (g : Bool) (hk : env.writeOk = false) :
    (setUser env store u g).store = store ∧
    ∀ e ∈ (setUser env store u g).events, e.isPersist = false := by
  cases hw : env.workspace <;>
    cases g <;> cases hr : env.repoInitialized <;>
    simp [setUser, hw, hr, hk, Event.isPersist]

/-- Witness for C9: a concrete failing write over a concrete store. -/
theorem c9_write_failure_skips_registration_witness :
    ({ demoEnv with writeOk := false } : Env).writeOk = false ∧
    ((setUser { demoEnv with writeOk := false } [demoAlice] demoBob false).store
        = [demoAlice] ∧
      ∀ e ∈ (setUser { demoEnv with writeOk := false } [demoAlice] demoBob false).events,
        e.isPersist = false) :=
  ⟨rfl,
    c9_write_failure_skips_registration { demoEnv with writeOk := false }
      [demoAlice] demoBob false rfl⟩

/-- C10: setUser returns the applied identity exactly on the full success
path (workspace present, scope check passed, git write succeeded, and the
identity already stored or the persistence update succeeded) and returns
undefined on every failure path, so callers can detect success by the
mere presence of a result. -/
theorem c10_result_iff_success (env : Env) (store : List User) (u : User)
    (g : Bool) :
    (setUser env store u g).ret =
      Except.ok (if applySucceeds env store u g then some u else none) ∧
    (applySucceeds env store u g = true ↔
      env.workspace.isSome = true ∧ (g = true ∨ env.repoInitialized = true) ∧
        env.writeOk = true ∧ (memberOf store u = true ∨ env.persistOk = true)) := by
  refine ⟨setUser_ret_eq env store u g, ?_⟩
  simp [applySucceeds, Bool.and_assoc]

/-- C6 counterexample: a read whose combined output is the single line
"Alice" with zero exit is accepted and parsed as a name-only identity
with undefined email; it is not treated as a probe failure. -/
theorem c6_single_line_is_parsed_not_error :
    currentIdentity (some "Alice") = Except.ok ⟨"Alice", none⟩ ∧
    currentIdentity (some "Alice") ≠ Except.error () := by
  have h : probeParse "Alice" = ⟨"Alice", none⟩ := by decide
  exact ⟨by simp [currentIdentity, h], by simp [currentIdentity]⟩

/-- C6 amended: the identity read fails exactly when the subprocess exits
non-zero; on zero exit the trimmed output is split on newlines, line 0
becomes the name, and line 1 — undefined when the output has a single
line — becomes the email, so single-line output yields a name-only
identity rather than a probe failure. -/
theorem c6_probe_error_iff_nonzero_exit (r : Option String) :
    (currentIdentity r = Except.error () ↔ r = none) ∧
    ∀ out, r = some out →
      currentIdentity r = Except.ok
        { name := (jsSplitNewline (jsTrim out)).headD "",
          email := (jsSplitNewline (jsTrim out))[1]? } := by
  cases r <;> simp [currentIdentity, probeParse]

/-- Witness for C6 at the concrete two-line output. -/
theorem c6_probe_error_iff_nonzero_exit_witness :
    (currentIdentity (some "Alice\nalice@x.com") = Except.error ()
      ↔ (some "Alice\nalice@x.com" : Option String) = none) ∧
    currentIdentity (some "Alice\nalice@x.com") = Except.ok
      { name := (jsSplitNewline (jsTrim "Alice\nalice@x.com")).headD "",
        email := (jsSplitNewline (jsTrim "Alice\nalice@x.com"))[1]? } :=
  ⟨(c6_probe_error_iff_nonzero_exit (some "Alice\nalice@x.com")).1,
    (c6_probe_error_iff_nonzero_exit (some "Alice\nalice@x.com")).2
      "Alice\nalice@x.com" rfl⟩

/-- The empty identity the resolver falls back to when the read fails. -/
def emptyUser : User := ⟨"", some ""⟩

/-- C4 counterexample: when the read fails and the persistence update
also fails over a store not containing the empty identity, the resolver's
promise rejects instead of returning the empty identity, and the empty
identity is not registered. -/
theorem c4_read_failure_can_raise :
    (getCurrentUser { demoEnv with readOutput := none, persistOk := false } []).ret
      = Except.error () ∧
    (getCurrentUser { demoEnv with readOutput := none, persistOk := false } []).store
      = [] := by
  exact ⟨rfl, rfl⟩

/-- C4 amended: when the read command fails the resolver produces the
empty identity; provided the persistence update succeeds or the empty
identity is already stored, the resolver returns that identity without
rejecting, and a duplicate-free store holds the empty identity exactly
once afterwards.  (When the update also fails while the identity is new,
the promise rejects instead — see the counterexample.) -/
theorem c4_read_failure_returns_empty (env : Env) (store : List User)
    (hr : env.readOutput = none) (hd : store.Nodup)
    (hp : env.persistOk = true ∨ memberOf store emptyUser = true) :
    (getCurrentUser env store).ret = Except.ok emptyUser ∧
    (getCurrentUser env store).store.count emptyUser = 1 := by
  have hru : resolvedUser env = emptyUser := by
    simp [resolvedUser, currentIdentity, hr, emptyUser]
  rw [getCurrentUser_ret_eq, getCurrentUser_store_eq, hru]
  by_cases hm : memberOf store emptyUser
  · have hmem := (memberOf_iff store emptyUser).mp hm
    simp [hm, List.count_eq_one_of_mem hd hmem]
  · rcases hp with hp | hp
    · have hnot : emptyUser ∉ store := fun h => hm ((memberOf_iff _ _).mpr h)
      simp [hm, hp, List.count_append, List.count_eq_zero_of_not_mem hnot]
    · exact absurd hp hm

/-- Witness for C4 at a concrete failing read over the empty store. -/
theorem c4_read_failure_returns_empty_witness :
    ({ demoEnv with readOutput := none } : Env).readOutput = none ∧
    ([] : List User).Nodup ∧
    (({ demoEnv with readOutput := none } : Env).persistOk = true ∨
      memberOf [] emptyUser = true) ∧
    ((getCurrentUser { demoEnv with readOutput := none } []).ret
        = Except.ok emptyUser ∧
      (getCurrentUser { demoEnv with readOutput := none } []).store.count emptyUser
        = 1) :=
  ⟨rfl, List.nodup_nil, Or.inl rfl,
    c4_read_failure_returns_empty { demoEnv with readOutput := none } [] rfl
      List.nodup_nil (Or.inl rfl)⟩

/-- C7 counterexample: a run where the read succeeds but the persistence
update fails while registering a newly seen identity: the error escapes
getCurrentUser as a rejected promise rather than being caught at its
boundary. -/
theorem c7_resolver_persist_failure_escapes :
    (getCurrentUser { demoEnv with persistOk := false } []).ret
      = Except.error () := by
  rfl

/-- C7 amended: the applier catches every internal failure at its own
boundary (its promise always resolves), and the resolver catches probe
failures, but a persistence failure while registering a newly seen
identity escapes the resolver as a rejected promise: the resolver rejects
exactly when the probed identity is absent from the store and the update
fails. -/
theorem c7_error_boundary (env : Env) (store : List User) (u : User)
    (g : Bool) :
    (setUser env store u g).ret ≠ Except.error () ∧
    ((getCurrentUser env store).ret = Except.error () ↔
      memberOf store (resolvedUser env) = false ∧ env.persistOk = false) := by
  constructor
  · rw [setUser_ret_eq]; simp
  · rw [getCurrentUser_ret_eq]
    by_cases hm : memberOf store (resolvedUser env) <;>
      by_cases hp : env.persistOk <;> simp [hm, hp]

/-! ## The store invariant over operation sequences -/

theorem step_store_cases (s : List User) (op : Op) :
    (step s op).1 = s ∨ ∃ u, (step s op).1 = addIfAbsent s u := by
  cases op with
  | resolve env =>
    simp only [step]
    rw [getCurrentUser_store_eq]
    by_cases hm : memberOf s (resolvedUser env)
    · exact Or.inl (by simp [hm])
    · by_cases hp : env.persistOk
      · exact Or.inr ⟨resolvedUser env, by simp [hm, hp, addIfAbsent]⟩
      · exact Or.inl (by simp [hm, hp])
  | apply env u g =>
    simp only [step]
    rw [setUser_store_eq]
    by_cases ha : applySucceeds env s u g
    · exact Or.inr ⟨u, by simp [ha]⟩
    · exact Or.inl (by simp [ha])

theorem step_nodup {s : List User} (op : Op) (h : s.Nodup) :
    (step s op).1.Nodup := by
  rcases step_store_cases s op with h1 | ⟨u, h1⟩ <;> rw [h1]
  · exact h
  · exact addIfAbsent_nodup u h

theorem step_mem_mono {s : List User} {a : User} (op : Op) (h : a ∈ s) :
    a ∈ (step s op).1 := by
  rcases step_store_cases s op with h1 | ⟨u, h1⟩ <;> rw [h1]
  · exact h
  · exact mem_addIfAbsent_of_mem u h

theorem step_success_mem (s : List User) (op : Op) :
    ∀ u ∈ (step s op).2, u ∈ (step s op).1 := by
  intro u hu
  cases op with
  | resolve env =>
    simp only [step] at hu ⊢
    rw [getCurrentUser_ret_eq] at hu
    rw [getCurrentUser_store_eq]
    by_cases hm : memberOf s (resolvedUser env)
    · simp [hm] at hu ⊢
      exact hu ▸ (memberOf_iff s (resolvedUser env)).mp hm
    · by_cases hp : env.persistOk
      · simp [hm, hp] at hu ⊢
        exact Or.inr hu
      · simp [hm, hp] at hu
  | apply env v g =>
    simp only [step] at hu ⊢
    rw [setUser_ret_eq] at hu
    rw [setUser_store_eq]
    by_cases ha : applySucceeds env s v g
    · simp [ha] at hu ⊢
      exact hu ▸ mem_addIfAbsent_self s v
    · simp [ha] at hu

theorem runTrace_mem_mono {s : List User} {a : User} (ops : List Op)
    (h : a ∈ s) : a ∈ (runTrace s ops).1 := by
  induction ops generalizing s with
  | nil => simpa [runTrace] using h
  | cons op ops ih => simpa [runTrace] using ih (step_mem_mono op h)

/-- C2: starting from a duplicate-free Profile Store, after any sequence
of resolver and applier operations the store still contains no two equal
(name, email) entries, and every identity successfully probed or
successfully applied along the way occurs in the final store exactly
once. -/
theorem c2_store_invariant (store : List User) (ops : List Op)
    (h : store.Nodup) :
    (runTrace store ops).1.Nodup ∧
    ∀ u ∈ (runTrace store ops).2, (runTrace store ops).1.count u = 1 := by
  have key : ∀ (ops : List Op) (s : List User), s.Nodup →
      (runTrace s ops).1.Nodup ∧
        ∀ u ∈ (runTrace s ops).2, u ∈ (runTrace s ops).1 := by
    intro ops
    induction ops with
    | nil => intro s hs; simpa [runTrace] using hs
    | cons op ops ih =>
      intro s hs
      obtain ⟨hn, hm⟩ := ih (step s op).1 (step_nodup op hs)
      refine ⟨by simpa [runTrace] using hn, ?_⟩
      intro u hu
      simp only [runTrace, List.mem_append] at hu
      rcases hu with hu | hu
      · simpa [runTrace] using runTrace_mem_mono ops (step_success_mem s op u hu)
      · simpa [runTrace] using hm u hu
  obtain ⟨hn, hm⟩ := key ops store h
  exact ⟨hn, fun u hu => List.count_eq_one_of_mem hn (hm u hu)⟩

/-- Concrete operation sequence used by the C2 witness: a global apply of
Bob followed by a resolver run probing Alice. -/
def demoOps : List Op := [Op.apply demoEnv demoBob true, Op.resolve demoEnv]

/-- Witness for C2 over a concrete operation sequence from the empty
store. -/
theorem c2_store_invariant_witness :
    ([] : List User).Nodup ∧
    ((runTrace [] demoOps).1.Nodup ∧
      ∀ u ∈ (runTrace [] demoOps).2, (runTrace [] demoOps).1.count u = 1) :=
  ⟨List.nodup_nil, c2_store_invariant [] demoOps List.nodup_nil⟩
